import Mathlib

/-!
Verification development for the Haikw configuration / manipulation layer.

The definitions below are a shallow embedding of the Python source:
  - src/state.py            (VirtualObjectPosition, VirtualObjectPositionFactory)
  - src/virtualobject.py    (VirtualObjectColor, ComplexColorResolutionStrategy,
                             VirtualObjectSize, VirtualObject)
  - src/builders.py         (VirtualObjectBuilder)
  - src/yaml/structures.py  (DictionarySet)
  - src/experiment.py       (Setup, SetupManager, RobotPart)
  - src/manipulation.py     (VirtualObjectManipulationStrategy interface,
                             ObjectManipulationFacade)

Conventions of the embedding:
  - Python floats are modelled as Int (all behaviour under scrutiny is
    structural: component selection, addition, defaulting).
  - A raised Python exception is modelled as Except.error carrying a PyErr
    that records the exception class and message of the source.
  - Python None used as a defaultable keyword argument is modelled as
    Option with value none.
  - Methods take their receiver as the first explicit argument.
  - Duck-typed parameters (a value that may be a string name, a position,
    or a virtual object) are modelled by the inductive PyVal; its
    constructor PyVal.other stands for a value of any further type.
-/

/-- Exception classes raised by the embedded code, with their messages. -/
inductive PyErr where
  | valueError (msg : String)
  | keyError (msg : String)
  | typeError (msg : String)
  | attributeError (msg : String)
  | indexError (msg : String)
deriving DecidableEq

/-- Decidable equality for results of embedded fallible operations. -/
instance instDecidableEqExceptEmbedding {ε α : Type} [DecidableEq ε]
    [DecidableEq α] : DecidableEq (Except ε α) := fun a b =>
  match a, b with
  | .error x, .error y =>
      if h : x = y then isTrue (by rw [h])
      else isFalse (by intro hc; injection hc; exact h ‹x = y›)
  | .error _, .ok _ => isFalse (by intro hc; cases hc)
  | .ok _, .error _ => isFalse (by intro hc; cases hc)
  | .ok x, .ok y =>
      if h : x = y then isTrue (by rw [h])
      else isFalse (by intro hc; injection hc; exact h ‹x = y›)

/-- src/state.py, class VirtualObjectPosition: immutable 6-DOF pose. -/
structure VirtualObjectPosition where
  x : Int
  y : Int
  z : Int
  roll : Int
  pitch : Int
  yaw : Int
deriving DecidableEq

/-- src/state.py VirtualObjectPosition.get_x. -/
def VirtualObjectPosition.get_x (p : VirtualObjectPosition) : Int := p.x

/-- src/state.py VirtualObjectPosition.get_y. -/
def VirtualObjectPosition.get_y (p : VirtualObjectPosition) : Int := p.y

/-- src/state.py VirtualObjectPosition.get_z. -/
def VirtualObjectPosition.get_z (p : VirtualObjectPosition) : Int := p.z

/-- src/state.py VirtualObjectPosition.get_roll. -/
def VirtualObjectPosition.get_roll (p : VirtualObjectPosition) : Int := p.roll

/-- src/state.py VirtualObjectPosition.get_pitch. -/
def VirtualObjectPosition.get_pitch (p : VirtualObjectPosition) : Int := p.pitch

/-- src/state.py VirtualObjectPosition.get_yaw. -/
def VirtualObjectPosition.get_yaw (p : VirtualObjectPosition) : Int := p.yaw

/-- src/state.py, class VirtualObjectPositionFactory: default rotational
components and the name-keyed prefabricated positions given at
construction. DEFAULT is None in the source; a defaultable argument is an
Option here. -/
structure VirtualObjectPositionFactory where
  default_roll : Int
  default_pitch : Int
  default_yaw : Int
  prefabricated_positions : List (String × VirtualObjectPosition)
deriving DecidableEq

/-- src/state.py VirtualObjectPositionFactory.create_position: unspecified
rotational components are replaced by the factory defaults. -/
def VirtualObjectPositionFactory.create_position
    (f : VirtualObjectPositionFactory) (x y z : Int)
    (roll pitch yaw : Option Int) : VirtualObjectPosition :=
  let roll := roll.getD f.default_roll
  let pitch := pitch.getD f.default_pitch
  let yaw := yaw.getD f.default_yaw
  ⟨x, y, z, roll, pitch, yaw⟩

/-- src/state.py VirtualObjectPositionFactory.clone: each component of the
result is the override when supplied, else the corresponding component of
the given position. -/
def VirtualObjectPositionFactory.clone (position : VirtualObjectPosition)
    (x y z roll pitch yaw : Option Int) : VirtualObjectPosition :=
  ⟨x.getD position.get_x, y.getD position.get_y, z.getD position.get_z,
   roll.getD position.get_roll, pitch.getD position.get_pitch,
   yaw.getD position.get_yaw⟩

/-- src/state.py VirtualObjectPositionFactory.create_prefabricated: looks
up the named prefabricated position (ValueError when absent) and clones it
with the supplied overrides. -/
def VirtualObjectPositionFactory.create_prefabricated
    (f : VirtualObjectPositionFactory) (name : String)
    (x y z roll pitch yaw : Option Int) : Except PyErr VirtualObjectPosition :=
  match f.prefabricated_positions.lookup name with
  | none => .error (.valueError "Prefabricated position not defined")
  | some position =>
      .ok (VirtualObjectPositionFactory.clone position x y z roll pitch yaw)

/-- src/state.py VirtualObjectPositionFactory.create_position_relative,
lines 216-252. The source first resolves unspecified roll/pitch/yaw to the
factory defaults, then adds the corresponding component of the base
position to every one of the six components, translation and rotation
alike: x = x + position.get_x() ... yaw = yaw + position.get_yaw(). -/
def VirtualObjectPositionFactory.create_position_relative
    (f : VirtualObjectPositionFactory) (position : VirtualObjectPosition)
    (x y z : Int) (roll pitch yaw : Option Int) : VirtualObjectPosition :=
  let roll := roll.getD f.default_roll
  let pitch := pitch.getD f.default_pitch
  let yaw := yaw.getD f.default_yaw
  let x := x + position.get_x
  let y := y + position.get_y
  let z := z + position.get_z
  let roll := roll + position.get_roll
  let pitch := pitch + position.get_pitch
  let yaw := yaw + position.get_yaw
  ⟨x, y, z, roll, pitch, yaw⟩

/-- src/virtualobject.py, class VirtualObjectColor: stored components. -/
structure VirtualObjectColor where
  r : Int
  g : Int
  b : Int
deriving DecidableEq

/-- src/virtualobject.py VirtualObjectColor.__init__, lines 105-131: each
component is range-checked in the order red, green, blue; the first
component outside 0..255 raises ValueError. -/
def VirtualObjectColor.make (r g b : Int) : Except PyErr VirtualObjectColor :=
  if 0 ≤ r ∧ r ≤ 255 then
    if 0 ≤ g ∧ g ≤ 255 then
      if 0 ≤ b ∧ b ≤ 255 then
        .ok ⟨r, g, b⟩
      else
        .error (.valueError "Invalid value for the provided blue value (must be between 0 and 255)")
    else
      .error (.valueError "Invalid value for the provided green value (must be between 0 and 255)")
  else
    .error (.valueError "Invalid value for the provided red value (must be between 0 and 255)")

/-- src/virtualobject.py VirtualObjectColor.get_red. -/
def VirtualObjectColor.get_red (c : VirtualObjectColor) : Int := c.r

/-- src/virtualobject.py VirtualObjectColor.get_green. -/
def VirtualObjectColor.get_green (c : VirtualObjectColor) : Int := c.g

/-- src/virtualobject.py VirtualObjectColor.get_blue. -/
def VirtualObjectColor.get_blue (c : VirtualObjectColor) : Int := c.b

/-- Character class of the source regular expression, the part written
[\dA-F]: a decimal digit or an UPPERCASE letter A..F. The expression is
compiled without re.IGNORECASE in the source (src/virtualobject.py line
229), so lowercase a..f are not in the class. -/
def isUpperHexDigit (c : Char) : Bool :=
  c.isDigit || ('A' ≤ c && c ≤ 'F')

/-- Numeric value of a character accepted by isUpperHexDigit, as computed
by int(group, 16) on the matched text. -/
def upperHexDigitVal (c : Char) : Int :=
  if c.isDigit then (c.toNat : Int) - ('0'.toNat : Int)
  else (c.toNat : Int) - ('A'.toNat : Int) + 10

/-- Embeds self.__hex_regex.match(description) for the source pattern
of src/virtualobject.py line 229 with the three two-digit groups red,
green, blue: the match succeeds exactly when the string starts with a
sharp sign followed by six characters of the class [\dA-F]; trailing
characters are ignored by re.match. Returns the decoded groups. -/
def hexRegexMatchGroups (s : String) : Option (Int × Int × Int) :=
  match s.toList with
  | '#' :: r1 :: r2 :: g1 :: g2 :: b1 :: b2 :: _ =>
      if isUpperHexDigit r1 && isUpperHexDigit r2 && isUpperHexDigit g1 &&
          isUpperHexDigit g2 && isUpperHexDigit b1 && isUpperHexDigit b2 then
        some (16 * upperHexDigitVal r1 + upperHexDigitVal r2,
              16 * upperHexDigitVal g1 + upperHexDigitVal g2,
              16 * upperHexDigitVal b1 + upperHexDigitVal b2)
      else none
  | _ => none

/-- A color description as passed to
ComplexColorResolutionStrategy.get_color: a string, a dict with integer
components, or a value of any other type. -/
inductive PyColorDescription where
  | str (s : String)
  | dict (entries : List (String × Int))
  | other
deriving DecidableEq

/-- src/virtualobject.py, class ComplexColorResolutionStrategy: the
registered name-to-color mapping (a plain Python dict). -/
structure ComplexColorResolutionStrategy where
  colors : List (String × VirtualObjectColor)
deriving DecidableEq

/-- src/virtualobject.py ComplexColorResolutionStrategy.get_color, lines
214-289. String case: a leading sharp sign selects the hex branch (match
failure raises ValueError), otherwise a registered name is looked up,
otherwise ValueError; indexing the empty string raises IndexError. Dict
case: red, blue, green are checked for presence and range in the order of
the source. Any other type raises ValueError. -/
def ComplexColorResolutionStrategy.get_color
    (strategy : ComplexColorResolutionStrategy)
    (description : PyColorDescription) : Except PyErr VirtualObjectColor :=
  match description with
  | .str s =>
      match s.toList with
      | [] => .error (.indexError "string index out of range")
      | c :: _ =>
          if c = '#' then
            match hexRegexMatchGroups s with
            | none =>
                .error (.valueError "Invalid color value, need #rrggbb, name, or individual components")
            | some (red, green, blue) => VirtualObjectColor.make red green blue
          else
            match strategy.colors.lookup s with
            | some c =>
                .ok c
            | none =>
                .error (.valueError "Must be a hex description #rrggbb or name corresponding to a registered color. This string resolved to neither")
  | .dict entries =>
      match entries.lookup "red" with
      | none => .error (.valueError "Red not specified for this color")
      | some red =>
          if red > 255 ∨ red < 0 then
            .error (.valueError "The value for red was between 0 and 255")
          else
            match entries.lookup "blue" with
            | none => .error (.valueError "Blue not specified for this color")
            | some blue =>
                if blue > 255 ∨ blue < 0 then
                  .error (.valueError "The value for blue was between 0 and 255")
                else
                  match entries.lookup "green" with
                  | none => .error (.valueError "Green not specified for this color")
                  | some green =>
                      if green > 255 ∨ green < 0 then
                        .error (.valueError "The value for green was between 0 and 255")
                      else VirtualObjectColor.make red green blue
  | .other => .error (.valueError "Description needs to be a string or dictionary")

/-- The argument of add_color: an already resolved VirtualObjectColor or a
description to resolve first. -/
inductive PyColorValue where
  | color (c : VirtualObjectColor)
  | description (d : PyColorDescription)
deriving DecidableEq

/-- Python dict assignment d[k] = v: replace the binding when the key is
present, else append it. -/
def dictUpdate {V : Type} (d : List (String × V)) (k : String) (v : V) :
    List (String × V) :=
  match d with
  | [] => [(k, v)]
  | (k0, v0) :: rest =>
      if k0 = k then (k0, v) :: rest else (k0, v0) :: dictUpdate rest k v

/-- src/virtualobject.py ComplexColorResolutionStrategy.add_color, lines
291-302: a value that is not already a VirtualObjectColor is resolved
through get_color (propagating its error), then stored under the name. -/
def ComplexColorResolutionStrategy.add_color
    (strategy : ComplexColorResolutionStrategy) (name : String)
    (color : PyColorValue) : Except PyErr ComplexColorResolutionStrategy :=
  match color with
  | .color c => .ok ⟨dictUpdate strategy.colors name c⟩
  | .description d =>
      match strategy.get_color d with
      | .error e => .error e
      | .ok c => .ok ⟨dictUpdate strategy.colors name c⟩

/-- src/virtualobject.py, class VirtualObjectSize: the dimension list. -/
structure VirtualObjectSize where
  dimensions : List Int
deriving DecidableEq

/-- src/virtualobject.py, class VirtualObject: immutable snapshot of a
simulated object. The constructor type checks of the source hold by
construction in this typed embedding. -/
structure VirtualObject where
  name : String
  position : VirtualObjectPosition
  descriptor : String
  color : VirtualObjectColor
  size : VirtualObjectSize
deriving DecidableEq

/-- src/virtualobject.py VirtualObject.get_name. -/
def VirtualObject.get_name (o : VirtualObject) : String := o.name

/-- src/virtualobject.py VirtualObject.get_position. -/
def VirtualObject.get_position (o : VirtualObject) : VirtualObjectPosition :=
  o.position

/-- src/virtualobject.py VirtualObject.get_descriptor. -/
def VirtualObject.get_descriptor (o : VirtualObject) : String := o.descriptor

/-- src/virtualobject.py VirtualObject.get_color. -/
def VirtualObject.get_color (o : VirtualObject) : VirtualObjectColor := o.color

/-- src/virtualobject.py VirtualObject.get_size. -/
def VirtualObject.get_size (o : VirtualObject) : VirtualObjectSize := o.size

/-- src/builders.py, class VirtualObjectBuilder: the pending descriptor,
color and size, each NOT_SPECIFIED (None) until set. The construction
strategy field is elided: its only use, create_object, acts on the
external simulation and returns no data. -/
structure VirtualObjectBuilder where
  descriptor : Option String
  color : Option VirtualObjectColor
  size : Option VirtualObjectSize
deriving DecidableEq

/-- src/builders.py VirtualObjectBuilder.set_descriptor. -/
def VirtualObjectBuilder.set_descriptor (b : VirtualObjectBuilder)
    (new_descriptor : String) : VirtualObjectBuilder :=
  { b with descriptor := some new_descriptor }

/-- src/builders.py VirtualObjectBuilder.set_color. -/
def VirtualObjectBuilder.set_color (b : VirtualObjectBuilder)
    (new_color : VirtualObjectColor) : VirtualObjectBuilder :=
  { b with color := some new_color }

/-- src/builders.py VirtualObjectBuilder.set_size. -/
def VirtualObjectBuilder.set_size (b : VirtualObjectBuilder)
    (new_size : VirtualObjectSize) : VirtualObjectBuilder :=
  { b with size := some new_size }

/-- src/builders.py VirtualObjectBuilder.create, lines 63-92: checks that
descriptor, color and size have been set (AttributeError naming the first
missing one), constructs the VirtualObject, hands it to the backend
construction strategy (an external side effect with no returned data,
elided here) and returns it. -/
def VirtualObjectBuilder.create (b : VirtualObjectBuilder) (name : String)
    (position : VirtualObjectPosition) : Except PyErr VirtualObject :=
  match b.descriptor with
  | none => .error (.attributeError "Descriptor has not been set. Please call set_descriptor and try again.")
  | some d =>
      match b.color with
      | none => .error (.attributeError "Color has not been set. Please call set_color and try again.")
      | some c =>
          match b.size with
          | none => .error (.attributeError "Size has not been set. Please call set_size and try again.")
          | some s => .ok ⟨name, position, d, c, s⟩

/-- src/yaml/structures.py, class DictionarySet: a dictionary that does
not allow overwriting a key without deleting it first. -/
structure DictionarySet (V : Type) where
  internal_dict : List (String × V)
deriving DecidableEq

/-- src/yaml/structures.py DictionarySet.__contains__. -/
def DictionarySet.contains {V : Type} (d : DictionarySet V) (item : String) :
    Bool :=
  (d.internal_dict.lookup item).isSome

/-- src/yaml/structures.py DictionarySet.__getitem__: KeyError when the
key is absent, as for a Python dict. -/
def DictionarySet.getitem {V : Type} (d : DictionarySet V) (key : String) :
    Except PyErr V :=
  match d.internal_dict.lookup key with
  | some v => .ok v
  | none => .error (.keyError key)

/-- src/yaml/structures.py DictionarySet.__setitem__, lines 20-24: raises
AttributeError when the key is already present, else stores the binding. -/
def DictionarySet.setitem {V : Type} (d : DictionarySet V) (key : String)
    (value : V) : Except PyErr (DictionarySet V) :=
  if d.contains key then .error (.attributeError "Key already present")
  else .ok ⟨d.internal_dict ++ [(key, value)]⟩

/-- src/experiment.py, class RobotPart: a named robot part (affector). -/
structure RobotPart where
  name : String
deriving DecidableEq

/-- src/experiment.py, class Setup: immutable named collection of objects
with the robot state and descriptor of the constructor. -/
structure Setup where
  name : String
  objects : List VirtualObject
  robot_state : String
  robot_descriptor : String
deriving DecidableEq

/-- src/experiment.py, class SetupManager: holds the store given to the
constructor, documented there as a DictionarySet of String to Setup. -/
structure SetupManager where
  setups : DictionarySet Setup
deriving DecidableEq

/-- src/experiment.py SetupManager.get, lines 153-163: ValueError when no
setup of that name is registered, else the stored setup. -/
def SetupManager.get (m : SetupManager) (name : String) : Except PyErr Setup :=
  if m.setups.contains name = false then
    .error (.valueError "A setup by that name has not been registered")
  else m.setups.getitem name

/-- src/experiment.py SetupManager.add, lines 165-174: stores the setup
under the name through the DictionarySet item assignment, which raises
AttributeError when the name is already present. -/
def SetupManager.add (m : SetupManager) (name : String) (setup : Setup) :
    Except PyErr SetupManager :=
  match m.setups.setitem name setup with
  | .error e => .error e
  | .ok d => .ok ⟨d⟩

/-- A duck-typed Python argument: a string, a VirtualObjectPosition, a
VirtualObject, or a value of any other type. -/
inductive PyVal where
  | str (s : String)
  | pos (p : VirtualObjectPosition)
  | obj (o : VirtualObject)
  | other
deriving DecidableEq

/-- src/manipulation.py, class VirtualObjectManipulationStrategy (also
src/specialization.py): the backend capability interface the facade is
given. Each operation may raise; σ is the backend state, threaded
explicitly. Signatures follow the interface: grab(target, affector),
face(position, affector), update(target, position) returning the moved
state, release(affector), delete(target), refresh(target) returning the
current state. -/
structure VirtualObjectManipulationStrategy (σ : Type) where
  get_default_affector : σ → RobotPart
  refresh : VirtualObject → σ → Except PyErr VirtualObject × σ
  grab : VirtualObject → RobotPart → σ → Except PyErr Unit × σ
  face : PyVal → RobotPart → σ → Except PyErr Unit × σ
  update : VirtualObject → VirtualObjectPosition → σ → Except PyErr VirtualObject × σ
  release : RobotPart → σ → Except PyErr Unit × σ
  delete : VirtualObject → σ → Except PyErr Unit × σ

/-- src/manipulation.py, class ObjectManipulationFacade, lines 570-791.
Fields not consulted by the operations under verification (object builder,
color and size resolvers, setup and robot managers, object strategy) are
elided. The tracking table __virtual_objects is a DictionarySet. -/
structure ObjectManipulationFacade (σ : Type) where
  manipulation_strategy : VirtualObjectManipulationStrategy σ
  strategy_state : σ
  object_position_factory : VirtualObjectPositionFactory
  virtual_objects : DictionarySet VirtualObject

/-- src/manipulation.py ObjectManipulationFacade.refresh, lines 703-714.
The body reads
  new = self.__manipulation_strategy.update(target)
which invokes the two-parameter strategy method update with a single
argument; in Python this raises TypeError at the call, before any backend
operation runs, so the following lines (deleting and re-inserting the
cache entry) never execute. The facade state is returned unchanged. -/
def ObjectManipulationFacade.refresh {σ : Type}
    (f : ObjectManipulationFacade σ) (target : VirtualObject) :
    Except PyErr VirtualObject × ObjectManipulationFacade σ :=
  let _ := target.get_name
  (.error (.typeError "update() takes exactly 3 arguments (2 given)"), f)

/-- src/manipulation.py ObjectManipulationFacade.get_object, lines
661-678: KeyError when the name is not tracked; otherwise the cached
entry, passed through refresh first when the update flag is set. -/
def ObjectManipulationFacade.get_object {σ : Type}
    (f : ObjectManipulationFacade σ) (name : String) (update : Bool) :
    Except PyErr VirtualObject × ObjectManipulationFacade σ :=
  if f.virtual_objects.contains name = false then
    (.error (.keyError "No objects by that name have been registered in this simulation"), f)
  else
    match f.virtual_objects.getitem name with
    | .error e => (.error e, f)
    | .ok ret_val =>
        if update then f.refresh ret_val
        else (.ok ret_val, f)

/-- src/manipulation.py ObjectManipulationFacade.add_object, lines
633-640: stores the object in the tracking table under its name through
the DictionarySet item assignment. -/
def ObjectManipulationFacade.add_object {σ : Type}
    (f : ObjectManipulationFacade σ) (new_object : VirtualObject) :
    Except PyErr Unit × ObjectManipulationFacade σ :=
  match f.virtual_objects.setitem new_object.get_name new_object with
  | .error e => (.error e, f)
  | .ok d => (.ok (), { f with virtual_objects := d })

/-- src/manipulation.py ObjectManipulationFacade.grab, lines 746-763:
defaults the affector, resolves a string target through get_object with the
default update flag (True), rejects a target of any other type with
ValueError (the message of the source), then forwards to the strategy. -/
def ObjectManipulationFacade.grab {σ : Type}
    (f : ObjectManipulationFacade σ) (target : PyVal)
    (affector : Option RobotPart) :
    Except PyErr Unit × ObjectManipulationFacade σ :=
  let aff := affector.getD (f.manipulation_strategy.get_default_affector f.strategy_state)
  match target with
  | .str s =>
      match f.get_object s true with
      | (.error e, f1) => (.error e, f1)
      | (.ok o, f1) =>
          let r := f1.manipulation_strategy.grab o aff f1.strategy_state
          (r.1, { f1 with strategy_state := r.2 })
  | .obj o =>
      let r := f.manipulation_strategy.grab o aff f.strategy_state
      (r.1, { f with strategy_state := r.2 })
  | _ => (.error (.valueError "Position must be the name (string) of a simulated object or a VirtualObject"), f)

/-- src/manipulation.py ObjectManipulationFacade.face, lines 765-777:
defaults the affector and passes the target through to the strategy
without any resolution. -/
def ObjectManipulationFacade.face {σ : Type}
    (f : ObjectManipulationFacade σ) (target : PyVal)
    (affector : Option RobotPart) :
    Except PyErr Unit × ObjectManipulationFacade σ :=
  let aff := affector.getD (f.manipulation_strategy.get_default_affector f.strategy_state)
  let r := f.manipulation_strategy.face target aff f.strategy_state
  (r.1, { f with strategy_state := r.2 })

/-- src/manipulation.py ObjectManipulationFacade.release, lines 734-744:
defaults the affector and forwards to the strategy. -/
def ObjectManipulationFacade.release {σ : Type}
    (f : ObjectManipulationFacade σ) (affector : Option RobotPart) :
    Except PyErr Unit × ObjectManipulationFacade σ :=
  let aff := affector.getD (f.manipulation_strategy.get_default_affector f.strategy_state)
  let r := f.manipulation_strategy.release aff f.strategy_state
  (r.1, { f with strategy_state := r.2 })

/-- src/manipulation.py ObjectManipulationFacade.put, lines 716-732:
defaults the affector, then runs self.grab(target, affector), then
self.face(position, affector), then self.release(affector), each statement
executed only when the previous one did not raise; returns None. The body
contains no refresh call and no access to the tracking table beyond the
ones inside grab. -/
def ObjectManipulationFacade.put {σ : Type}
    (f : ObjectManipulationFacade σ) (target : PyVal) (position : PyVal)
    (affector : Option RobotPart) :
    Except PyErr Unit × ObjectManipulationFacade σ :=
  let aff := match affector with
    | none => f.manipulation_strategy.get_default_affector f.strategy_state
    | some a => a
  match f.grab target (some aff) with
  | (.error e, f1) => (.error e, f1)
  | (.ok _, f1) =>
      match f1.face position (some aff) with
      | (.error e, f2) => (.error e, f2)
      | (.ok _, f2) => f2.release (some aff)

/-- src/manipulation.py ObjectManipulationFacade.delete, lines 612-624:
resolves a string target through get_object (with the default update flag
True), rejects other types with ValueError, forwards to the strategy
delete, and performs no change to the tracking table. -/
def ObjectManipulationFacade.delete {σ : Type}
    (f : ObjectManipulationFacade σ) (target : PyVal) :
    Except PyErr Unit × ObjectManipulationFacade σ :=
  match target with
  | .str s =>
      match f.get_object s true with
      | (.error e, f1) => (.error e, f1)
      | (.ok o, f1) =>
          let r := f1.manipulation_strategy.delete o f1.strategy_state
          (r.1, { f1 with strategy_state := r.2 })
  | .obj o =>
      let r := f.manipulation_strategy.delete o f.strategy_state
      (r.1, { f with strategy_state := r.2 })
  | _ => (.error (.valueError "Expected String name for target or VirtualObject"), f)

/-- src/manipulation.py ObjectManipulationFacade.update, lines 680-701:
resolves a string target through get_object(target, False), rejects other
target types with ValueError; resolves a string position through the
position factory, rejects other position types with ValueError; then calls
the strategy update as a statement, discarding its returned value, and
returns None without touching the tracking table. -/
def ObjectManipulationFacade.update {σ : Type}
    (f : ObjectManipulationFacade σ) (target : PyVal) (position : PyVal) :
    Except PyErr Unit × ObjectManipulationFacade σ :=
  match (match target with
         | .str s => f.get_object s false
         | .obj o => (.ok o, f)
         | _ => (.error (.valueError "Target must be the string name of a simulated object or a VirtualObject instance"), f)) with
  | (.error e, f1) => (.error e, f1)
  | (.ok t, f1) =>
      match (match position with
             | .str s => f1.object_position_factory.create_prefabricated s none none none none none none
             | .pos p => .ok p
             | _ => .error (.valueError "Expected position to be a VirtualObjectPosition instance or String name corresponding to position from a config file")) with
      | .error e => (.error e, f1)
      | .ok p =>
          let r := f1.manipulation_strategy.update t p f1.strategy_state
          (r.1.map (fun _ => ()), { f1 with strategy_state := r.2 })

/-- One observable call to the backend manipulation strategy. -/
inductive StratCall where
  | grab (target : String) (affector : String)
  | face (arg : PyVal) (affector : String)
  | release (affector : String)
  | update (target : String) (position : VirtualObjectPosition)
  | refresh (target : String)
  | delete (target : String)
deriving DecidableEq

/-- Behaviour of an instrumented backend: the outcome of each operation.
update and refresh return the object the backend reports. -/
structure RecordingBehavior where
  default_affector : RobotPart
  grab_result : Except PyErr Unit
  face_result : Except PyErr Unit
  release_result : Except PyErr Unit
  delete_result : Except PyErr Unit
  update_result : VirtualObject → VirtualObjectPosition → Except PyErr VirtualObject
  refresh_result : VirtualObject → Except PyErr VirtualObject

/-- An instrumented implementation of the manipulation strategy interface:
its state is the list of calls received so far, appended to on every
operation, with outcomes given by the behaviour. -/
def recordingStrategy (b : RecordingBehavior) :
    VirtualObjectManipulationStrategy (List StratCall) where
  get_default_affector := fun _ => b.default_affector
  refresh := fun t σ => (b.refresh_result t, σ ++ [.refresh t.get_name])
  grab := fun t a σ => (b.grab_result, σ ++ [.grab t.get_name a.name])
  face := fun v a σ => (b.face_result, σ ++ [.face v a.name])
  update := fun t p σ => (b.update_result t p, σ ++ [.update t.get_name p])
  release := fun a σ => (b.release_result, σ ++ [.release a.name])
  delete := fun t σ => (b.delete_result, σ ++ [.delete t.get_name])

/-- A facade over the instrumented backend. -/
def mkRecordingFacade (b : RecordingBehavior)
    (pf : VirtualObjectPositionFactory) (tab : DictionarySet VirtualObject)
    (trace : List StratCall) : ObjectManipulationFacade (List StratCall) :=
  ⟨recordingStrategy b, trace, pf, tab⟩

/-- Sample color matching the red of the test fixtures. -/
def sampleColor : VirtualObjectColor := ⟨255, 0, 0⟩

/-- Sample size matching the small size of the test fixtures. -/
def sampleSize : VirtualObjectSize := ⟨[1, 2, 3]⟩

/-- Sample position, the small offset of the test fixtures. -/
def samplePos0 : VirtualObjectPosition := ⟨1, 2, 3, 0, 0, 0⟩

/-- A second, distinct sample position. -/
def samplePos1 : VirtualObjectPosition := ⟨10, 11, 12, 0, 0, 0⟩

/-- Sample tracked object, the small red cube of the test fixtures. -/
def sampleObj : VirtualObject := ⟨"small_red_cube", samplePos0, "cube", sampleColor, sampleSize⟩

/-- Sample position factory with zero defaults, as built by
VirtualObjectPositionFactoryConstructor with its DEFAULT_ROLL,
DEFAULT_PITCH, DEFAULT_YAW of zero. -/
def sampleFactory : VirtualObjectPositionFactory :=
  ⟨0, 0, 0, [("small_offset", samplePos0)]⟩

/-- Tracking table holding the sample object under its name. -/
def sampleTable : DictionarySet VirtualObject :=
  ⟨[("small_red_cube", sampleObj)]⟩

/-- Backend behaviour where every operation succeeds; update reports the
object moved to the given position and refresh reports the object at
samplePos1. -/
def okBehavior : RecordingBehavior :=
  ⟨⟨"test_affector"⟩, .ok (), .ok (), .ok (), .ok (),
   fun t p => .ok ⟨t.get_name, p, t.get_descriptor, t.get_color, t.get_size⟩,
   fun t => .ok ⟨t.get_name, samplePos1, t.get_descriptor, t.get_color, t.get_size⟩⟩

/-- Facade instance over the instrumented all-succeeding backend, tracking
the sample object, with an empty call trace. -/
def sampleFacade : ObjectManipulationFacade (List StratCall) :=
  mkRecordingFacade okBehavior sampleFactory sampleTable []

/-- Position factory with nonzero configured defaults, for exercising the
rotational components of create_position_relative. -/
def ctrFactory : VirtualObjectPositionFactory := ⟨5, 6, 7, []⟩

/-- Base position with nonzero rotation. -/
def ctrBase : VirtualObjectPosition := ⟨1, 2, 3, 1, 1, 1⟩

/-- Color resolution strategy with no registered names. -/
def emptyColorStrategy : ComplexColorResolutionStrategy := ⟨[]⟩

/-- Sample setup for registry theorems. -/
def sampleSetup : Setup := ⟨"setup_1", [sampleObj], "state", "descriptor"⟩

/-- Setup manager already holding sampleSetup under its name. -/
def sampleSetupManager : SetupManager := ⟨⟨[("setup_1", sampleSetup)]⟩⟩

/-- C3 (amended): create_position_relative adds the translation offsets to
the base position componentwise, and its rotational components are the
factory defaults (or the explicitly supplied values) PLUS the base
position rotational components — they coincide with the factory defaults
only when the base rotation is zero. -/
theorem create_position_relative_adds_base_rotation
    (f : VirtualObjectPositionFactory) (base : VirtualObjectPosition)
    (dx dy dz : Int) :
    f.create_position_relative base dx dy dz none none none =
      ⟨dx + base.get_x, dy + base.get_y, dz + base.get_z,
       f.default_roll + base.get_roll, f.default_pitch + base.get_pitch,
       f.default_yaw + base.get_yaw⟩ ∧
    ∀ r p y : Int,
      f.create_position_relative base dx dy dz (some r) (some p) (some y) =
        ⟨dx + base.get_x, dy + base.get_y, dz + base.get_z,
         r + base.get_roll, p + base.get_pitch, y + base.get_yaw⟩ := by
  constructor
  · simp [VirtualObjectPositionFactory.create_position_relative, Option.getD]
  · intro r p y
    simp [VirtualObjectPositionFactory.create_position_relative, Option.getD]

/-- C3 counterexample: with factory defaults (5, 6, 7) and base position
(1, 2, 3, 1, 1, 1) with nonzero rotation, create_position_relative with
offsets (1, 1, 1) and unspecified rotation yields (2, 3, 4, 6, 7, 8): the
x/y/z components are base plus offsets as the claim states, but roll,
pitch and yaw are 6, 7, 8 — not the configured defaults 5, 6, 7 the claim
requires even for a base with nonzero rotation. -/
theorem create_position_relative_counterexample :
    ctrFactory.create_position_relative ctrBase 1 1 1 none none none =
      ⟨2, 3, 4, 6, 7, 8⟩ ∧
    ¬ ((ctrFactory.create_position_relative ctrBase 1 1 1 none none none).get_roll =
        ctrFactory.default_roll ∧
       (ctrFactory.create_position_relative ctrBase 1 1 1 none none none).get_pitch =
        ctrFactory.default_pitch ∧
       (ctrFactory.create_position_relative ctrBase 1 1 1 none none none).get_yaw =
        ctrFactory.default_yaw) := by
  decide

/-- C7: constructing a VirtualObjectColor succeeds exactly on components
within 0..255, reading back the stored components returns the originals,
and any component outside the range makes construction fail with a
ValueError. -/
theorem virtual_object_color_range (r g b : Int) :
    ((0 ≤ r ∧ r ≤ 255) ∧ (0 ≤ g ∧ g ≤ 255) ∧ (0 ≤ b ∧ b ≤ 255) →
      VirtualObjectColor.make r g b = .ok ⟨r, g, b⟩ ∧
      (VirtualObjectColor.mk r g b).get_red = r ∧
      (VirtualObjectColor.mk r g b).get_green = g ∧
      (VirtualObjectColor.mk r g b).get_blue = b) ∧
    (¬ ((0 ≤ r ∧ r ≤ 255) ∧ (0 ≤ g ∧ g ≤ 255) ∧ (0 ≤ b ∧ b ≤ 255)) →
      ∃ msg, VirtualObjectColor.make r g b = .error (.valueError msg)) := by
  constructor
  · rintro ⟨h1, h2, h3⟩
    refine ⟨?_, rfl, rfl, rfl⟩
    simp [VirtualObjectColor.make, h1, h2, h3]
  · intro h
    unfold VirtualObjectColor.make
    split_ifs with h1 h2 h3
    · exact absurd ⟨h1, h2, h3⟩ h
    · exact ⟨_, rfl⟩
    · exact ⟨_, rfl⟩
    · exact ⟨_, rfl⟩

/-- C7 witness: the range theorem applied at the in-range triple
(255, 17, 0) and at the out-of-range triple (256, 0, 0). -/
theorem virtual_object_color_range_witness :
    VirtualObjectColor.make 255 17 0 = .ok ⟨255, 17, 0⟩ ∧
    ∃ msg, VirtualObjectColor.make 256 0 0 = .error (.valueError msg) :=
  ⟨((virtual_object_color_range 255 17 0).1 (by decide)).1,
   (virtual_object_color_range 256 0 0).2 (by decide)⟩

/-- C8: setting a descriptor, a color and a size on the builder and then
calling create yields exactly the VirtualObject carrying those three
values, and reading descriptor, color and size back from that object
returns them unchanged. -/
theorem builder_round_trip (b0 : VirtualObjectBuilder) (d : String)
    (c : VirtualObjectColor) (s : VirtualObjectSize) (name : String)
    (position : VirtualObjectPosition) :
    (((b0.set_descriptor d).set_color c).set_size s).create name position =
      .ok ⟨name, position, d, c, s⟩ ∧
    (VirtualObject.mk name position d c s).get_descriptor = d ∧
    (VirtualObject.mk name position d c s).get_color = c ∧
    (VirtualObject.mk name position d c s).get_size = s := by
  refine ⟨?_, rfl, rfl, rfl⟩
  simp [VirtualObjectBuilder.set_descriptor, VirtualObjectBuilder.set_color,
        VirtualObjectBuilder.set_size, VirtualObjectBuilder.create]

/-- C9: the SetupManager over its DictionarySet store raises a not-found
ValueError from get for an unregistered name, raises from add for a name
already registered, and an add can only succeed when the name was absent —
re-adding never silently overwrites. -/
theorem setup_manager_strict_registry (m : SetupManager) (n : String)
    (s : Setup) :
    (m.setups.contains n = false →
      m.get n = .error (.valueError "A setup by that name has not been registered")) ∧
    (m.setups.contains n = true →
      m.add n s = .error (.attributeError "Key already present")) ∧
    (∀ m2, m.add n s = .ok m2 → m.setups.contains n = false) := by
  refine ⟨?_, ?_, ?_⟩
  · intro h
    simp [SetupManager.get, h]
  · intro h
    simp [SetupManager.add, DictionarySet.setitem, h]
  · intro m2 h
    by_cases hc : m.setups.contains n
    · simp [SetupManager.add, DictionarySet.setitem, hc] at h
    · simpa using hc

/-- C9 witness: the registry theorem applied to a concrete manager holding
one setup: get of a missing name raises, add of the present name raises. -/
theorem setup_manager_strict_registry_witness :
    SetupManager.get sampleSetupManager "missing" =
      .error (.valueError "A setup by that name has not been registered") ∧
    SetupManager.add sampleSetupManager "setup_1" sampleSetup =
      .error (.attributeError "Key already present") :=
  ⟨(setup_manager_strict_registry sampleSetupManager "missing" sampleSetup).1 (by decide),
   (setup_manager_strict_registry sampleSetupManager "setup_1" sampleSetup).2.1 (by decide)⟩

/-- C10: add_object on a facade already tracking the name raises the
AttributeError of the DictionarySet assignment and leaves the tracking
table unchanged. -/
theorem add_object_duplicate_name_rejected {σ : Type}
    (f : ObjectManipulationFacade σ) (o : VirtualObject)
    (h : f.virtual_objects.contains o.get_name = true) :
    (f.add_object o).1 = .error (.attributeError "Key already present") ∧
    (f.add_object o).2.virtual_objects = f.virtual_objects := by
  simp [ObjectManipulationFacade.add_object, DictionarySet.setitem, h]

/-- C10 witness: the duplicate-name theorem applied to the sample facade,
which already tracks sampleObj under its name. -/
theorem add_object_duplicate_name_rejected_witness :
    (sampleFacade.add_object sampleObj).1 =
      .error (.attributeError "Key already present") ∧
    (sampleFacade.add_object sampleObj).2.virtual_objects =
      sampleFacade.virtual_objects :=
  add_object_duplicate_name_rejected sampleFacade sampleObj (by decide)

/-- Helper: cloning a position with no overrides returns the position. -/
theorem clone_no_overrides (q : VirtualObjectPosition) :
    VirtualObjectPositionFactory.clone q none none none none none none = q := rfl

/-- Helper: a successful DictionarySet lookup behind getitem. -/
theorem lookup_of_getitem_ok {V : Type} (d : DictionarySet V) (k : String)
    (v : V) (h : d.getitem k = .ok v) : d.internal_dict.lookup k = some v := by
  unfold DictionarySet.getitem at h
  cases hl : d.internal_dict.lookup k with
  | none =>
      rw [hl] at h
      cases h
  | some w =>
      rw [hl] at h
      injection h with hw
      rw [hw]

/-- C1 (amended): put on the facade performs grab on the target, then face
on the position, then release, in exactly that order, with the defaulted
affector, and propagates the first failure without attempting the
remaining sub-steps — a failed grab prevents face and release; the
tracking table is never changed and no refresh is performed (the recorded
backend trace contains exactly the grab, face and release calls). -/
theorem put_grab_face_release_order
    (b : RecordingBehavior) (pf : VirtualObjectPositionFactory)
    (tab : DictionarySet VirtualObject) (tr : List StratCall)
    (t : VirtualObject) (p : PyVal) :
    ((mkRecordingFacade b pf tab tr).put (.obj t) p none).2.virtual_objects = tab ∧
    (b.grab_result = .ok () → b.face_result = .ok () →
      ((mkRecordingFacade b pf tab tr).put (.obj t) p none).1 = b.release_result ∧
      ((mkRecordingFacade b pf tab tr).put (.obj t) p none).2.strategy_state =
        tr ++ [.grab t.get_name b.default_affector.name,
               .face p b.default_affector.name,
               .release b.default_affector.name]) ∧
    (∀ e, b.grab_result = .error e →
      ((mkRecordingFacade b pf tab tr).put (.obj t) p none).1 = .error e ∧
      ((mkRecordingFacade b pf tab tr).put (.obj t) p none).2.strategy_state =
        tr ++ [.grab t.get_name b.default_affector.name]) ∧
    (∀ e, b.grab_result = .ok () → b.face_result = .error e →
      ((mkRecordingFacade b pf tab tr).put (.obj t) p none).1 = .error e ∧
      ((mkRecordingFacade b pf tab tr).put (.obj t) p none).2.strategy_state =
        tr ++ [.grab t.get_name b.default_affector.name,
               .face p b.default_affector.name]) := by
  cases hg : b.grab_result with
  | error e =>
      refine ⟨?_, ?_, ?_, ?_⟩
      · simp [ObjectManipulationFacade.put, ObjectManipulationFacade.grab,
              ObjectManipulationFacade.face, ObjectManipulationFacade.release,
              mkRecordingFacade, recordingStrategy, hg]
      · intro h1 _h2
        simp at h1
      · intro e2 he
        injection he with he2
        subst he2
        constructor
        · simp [ObjectManipulationFacade.put, ObjectManipulationFacade.grab,
                mkRecordingFacade, recordingStrategy, hg]
        · simp [ObjectManipulationFacade.put, ObjectManipulationFacade.grab,
                mkRecordingFacade, recordingStrategy, hg]
      · intro e2 h1 _h2
        simp at h1
  | ok u =>
      cases u
      cases hf : b.face_result with
      | error e =>
          refine ⟨?_, ?_, ?_, ?_⟩
          · simp [ObjectManipulationFacade.put, ObjectManipulationFacade.grab,
                  ObjectManipulationFacade.face, ObjectManipulationFacade.release,
                  mkRecordingFacade, recordingStrategy, hg, hf]
          · intro _h1 h2
            simp at h2
          · intro e2 he
            simp at he
          · intro e2 _h1 h2
            injection h2 with h3
            subst h3
            constructor
            · simp [ObjectManipulationFacade.put, ObjectManipulationFacade.grab,
                    ObjectManipulationFacade.face, mkRecordingFacade,
                    recordingStrategy, hg, hf]
            · simp [ObjectManipulationFacade.put, ObjectManipulationFacade.grab,
                    ObjectManipulationFacade.face, mkRecordingFacade,
                    recordingStrategy, hg, hf]
      | ok u2 =>
          cases u2
          refine ⟨?_, ?_, ?_, ?_⟩
          · simp [ObjectManipulationFacade.put, ObjectManipulationFacade.grab,
                  ObjectManipulationFacade.face, ObjectManipulationFacade.release,
                  mkRecordingFacade, recordingStrategy, hg, hf]
          · intro _h1 _h2
            constructor
            · simp [ObjectManipulationFacade.put, ObjectManipulationFacade.grab,
                    ObjectManipulationFacade.face, ObjectManipulationFacade.release,
                    mkRecordingFacade, recordingStrategy, hg, hf]
            · simp [ObjectManipulationFacade.put, ObjectManipulationFacade.grab,
                    ObjectManipulationFacade.face, ObjectManipulationFacade.release,
                    mkRecordingFacade, recordingStrategy, hg, hf]
          · intro e2 he
            simp at he
          · intro e2 _h1 h2
            simp at h2

/-- C1 witness: the order theorem applied to the sample facade with the
all-succeeding backend: put returns the release outcome and the recorded
backend trace is exactly grab, face, release. -/
theorem put_grab_face_release_order_witness :
    ((mkRecordingFacade okBehavior sampleFactory sampleTable []).put
        (.obj sampleObj) (.pos samplePos1) none).1 = okBehavior.release_result ∧
    ((mkRecordingFacade okBehavior sampleFactory sampleTable []).put
        (.obj sampleObj) (.pos samplePos1) none).2.strategy_state =
      [] ++ [.grab sampleObj.get_name okBehavior.default_affector.name,
             .face (.pos samplePos1) okBehavior.default_affector.name,
             .release okBehavior.default_affector.name] :=
  (put_grab_face_release_order okBehavior sampleFactory sampleTable []
      sampleObj (.pos samplePos1)).2.1 rfl rfl

/-- C1 counterexample: on the sample facade tracking sampleObj, put grabs,
faces and releases — the complete backend trace is exactly those three
calls, with no refresh call — returns None (unit), and leaves the cached
entry for the target untouched: afterwards the table still yields the
stale sampleObj and not the snapshot the backend refresh operation would
report, refuting the part of the claim that put refreshes the target and
returns the updated object. -/
theorem put_does_not_refresh_counterexample :
    (sampleFacade.put (.obj sampleObj) (.str "large_offset") none).1 = .ok () ∧
    (sampleFacade.put (.obj sampleObj) (.str "large_offset") none).2.strategy_state =
      [.grab "small_red_cube" "test_affector",
       .face (.str "large_offset") "test_affector",
       .release "test_affector"] ∧
    okBehavior.refresh_result sampleObj =
      .ok ⟨"small_red_cube", samplePos1, "cube", sampleColor, sampleSize⟩ ∧
    (sampleFacade.put (.obj sampleObj) (.str "large_offset") none).2.virtual_objects.getitem "small_red_cube" =
      .ok sampleObj ∧
    ¬ ((sampleFacade.put (.obj sampleObj) (.str "large_offset") none).2.virtual_objects.getitem "small_red_cube" =
        .ok ⟨"small_red_cube", samplePos1, "cube", sampleColor, sampleSize⟩) := by
  decide

/-- C2: evaluating delete at a tracked object: the deletion is forwarded
to the backend strategy (the trace records the delete call and the result
is None), but the tracking table still contains the entry and get_object
still returns the object — the facade never deregisters it, diverging from
the claim and from the expectation of test_facade_access. -/
theorem delete_keeps_tracking_entry :
    (sampleFacade.delete (.obj sampleObj)).1 = .ok () ∧
    (sampleFacade.delete (.obj sampleObj)).2.strategy_state =
      [.delete "small_red_cube"] ∧
    (sampleFacade.delete (.obj sampleObj)).2.virtual_objects.contains "small_red_cube" = true ∧
    ((sampleFacade.delete (.obj sampleObj)).2.get_object "small_red_cube" false).1 =
      .ok sampleObj := by
  decide

/-- C5: evaluating refresh at a tracked object: the call raises TypeError
(the source invokes the two-parameter strategy update with one argument),
the backend receives no call at all (the trace stays empty, in particular
the backend refresh operation is never invoked), the cache is not
replaced, and no snapshot is returned; get_object with its default update
flag fails the same way. -/
theorem refresh_raises_type_error :
    (sampleFacade.refresh sampleObj).1 =
      .error (.typeError "update() takes exactly 3 arguments (2 given)") ∧
    (sampleFacade.refresh sampleObj).2.strategy_state = ([] : List StratCall) ∧
    (sampleFacade.refresh sampleObj).2.virtual_objects = sampleTable ∧
    (sampleFacade.get_object "small_red_cube" true).1 =
      .error (.typeError "update() takes exactly 3 arguments (2 given)") := by
  decide

/-- C6 (amended): update resolves the target (tracked name or handle) and
the position (prefabricated name or explicit position), rejects a target
or position of any other kind with a ValueError, forwards the move to the
backend strategy update — and discards the returned new state, leaving the
whole tracking table, in particular the entry under the target name,
unchanged. -/
theorem update_forwards_without_cache_replacement
    (b : RecordingBehavior) (pf : VirtualObjectPositionFactory)
    (tab : DictionarySet VirtualObject) (tr : List StratCall)
    (t : VirtualObject) (p : VirtualObjectPosition) (n : String) :
    ((mkRecordingFacade b pf tab tr).update (.obj t) (.pos p)).1 =
        (b.update_result t p).map (fun _ => ()) ∧
    ((mkRecordingFacade b pf tab tr).update (.obj t) (.pos p)).2.strategy_state =
        tr ++ [.update t.get_name p] ∧
    ((mkRecordingFacade b pf tab tr).update (.obj t) (.pos p)).2.virtual_objects = tab ∧
    (tab.getitem n = .ok t →
      ((mkRecordingFacade b pf tab tr).update (.str n) (.pos p)).1 =
          (b.update_result t p).map (fun _ => ()) ∧
      ((mkRecordingFacade b pf tab tr).update (.str n) (.pos p)).2.strategy_state =
          tr ++ [.update t.get_name p] ∧
      ((mkRecordingFacade b pf tab tr).update (.str n) (.pos p)).2.virtual_objects = tab) ∧
    (∀ m q, pf.prefabricated_positions.lookup m = some q →
      ((mkRecordingFacade b pf tab tr).update (.obj t) (.str m)).1 =
          (b.update_result t q).map (fun _ => ()) ∧
      ((mkRecordingFacade b pf tab tr).update (.obj t) (.str m)).2.strategy_state =
          tr ++ [.update t.get_name q] ∧
      ((mkRecordingFacade b pf tab tr).update (.obj t) (.str m)).2.virtual_objects = tab) ∧
    (((mkRecordingFacade b pf tab tr).update .other (.pos p)).1 =
        .error (.valueError "Target must be the string name of a simulated object or a VirtualObject instance") ∧
     ((mkRecordingFacade b pf tab tr).update .other (.pos p)).2.strategy_state = tr) ∧
    (((mkRecordingFacade b pf tab tr).update (.obj t) .other).1 =
        .error (.valueError "Expected position to be a VirtualObjectPosition instance or String name corresponding to position from a config file") ∧
     ((mkRecordingFacade b pf tab tr).update (.obj t) .other).2.strategy_state = tr) := by
  refine ⟨?_, ?_, ?_, ?_, ?_, ?_, ?_⟩
  · simp [ObjectManipulationFacade.update, mkRecordingFacade, recordingStrategy]
  · simp [ObjectManipulationFacade.update, mkRecordingFacade, recordingStrategy]
  · simp [ObjectManipulationFacade.update, mkRecordingFacade, recordingStrategy]
  · intro h
    have hl := lookup_of_getitem_ok tab n t h
    refine ⟨?_, ?_, ?_⟩ <;>
      simp [ObjectManipulationFacade.update, ObjectManipulationFacade.get_object,
            DictionarySet.contains, DictionarySet.getitem, mkRecordingFacade,
            recordingStrategy, hl]
  · intro m q hq
    refine ⟨?_, ?_, ?_⟩ <;>
      simp [ObjectManipulationFacade.update,
            VirtualObjectPositionFactory.create_prefabricated,
            clone_no_overrides, mkRecordingFacade, recordingStrategy, hq]
  · constructor <;>
      simp [ObjectManipulationFacade.update, mkRecordingFacade, recordingStrategy]
  · constructor <;>
      simp [ObjectManipulationFacade.update, mkRecordingFacade, recordingStrategy]

/-- C6 witness: the update theorem applied at the sample facade with the
target given by its tracked name. -/
theorem update_forwards_without_cache_replacement_witness :
    ((mkRecordingFacade okBehavior sampleFactory sampleTable []).update
        (.str "small_red_cube") (.pos samplePos1)).1 =
      (okBehavior.update_result sampleObj samplePos1).map (fun _ => ()) ∧
    ((mkRecordingFacade okBehavior sampleFactory sampleTable []).update
        (.str "small_red_cube") (.pos samplePos1)).2.strategy_state =
      [] ++ [.update sampleObj.get_name samplePos1] ∧
    ((mkRecordingFacade okBehavior sampleFactory sampleTable []).update
        (.str "small_red_cube") (.pos samplePos1)).2.virtual_objects = sampleTable :=
  (update_forwards_without_cache_replacement okBehavior sampleFactory
      sampleTable [] sampleObj samplePos1 "small_red_cube").2.2.2.1 (by decide)

/-- C6 counterexample: on the sample facade the backend update reports the
object moved to samplePos1, the facade call succeeds and records the
backend update call, yet the tracking-table entry under the target name is
still the old sampleObj and is not the new state the backend returned —
refuting the claimed cache replacement. -/
theorem update_cache_not_replaced_counterexample :
    (sampleFacade.update (.obj sampleObj) (.pos samplePos1)).1 = .ok () ∧
    (sampleFacade.update (.obj sampleObj) (.pos samplePos1)).2.strategy_state =
      [.update "small_red_cube" samplePos1] ∧
    okBehavior.update_result sampleObj samplePos1 =
      .ok ⟨"small_red_cube", samplePos1, "cube", sampleColor, sampleSize⟩ ∧
    (sampleFacade.update (.obj sampleObj) (.pos samplePos1)).2.virtual_objects.getitem "small_red_cube" =
      .ok sampleObj ∧
    ¬ ((sampleFacade.update (.obj sampleObj) (.pos samplePos1)).2.virtual_objects.getitem "small_red_cube" =
        .ok ⟨"small_red_cube", samplePos1, "cube", sampleColor, sampleSize⟩) := by
  decide

/-- C4: evaluating the color resolver at the failing input of the claim:
seeding a resolver with the name red bound to the lowercase hex string
raises ValueError — the compiled hex pattern accepts only digits and
uppercase A..F, since the source omits re.IGNORECASE — so the claimed
resolution of red to (255, 17, 0) never becomes possible; the same string
fails in get_color directly, while the uppercase spelling of the very same
color seeds and then resolves to (255, 17, 0) exactly as the claim
expects, isolating the divergence to letter case. -/
theorem hex_color_lowercase_rejected :
    ComplexColorResolutionStrategy.add_color emptyColorStrategy "red"
        (.description (.str "#ff1100")) =
      .error (.valueError "Invalid color value, need #rrggbb, name, or individual components") ∧
    emptyColorStrategy.get_color (.str "#ff1100") =
      .error (.valueError "Invalid color value, need #rrggbb, name, or individual components") ∧
    ComplexColorResolutionStrategy.add_color emptyColorStrategy "red"
        (.description (.str "#FF1100")) =
      .ok ⟨[("red", ⟨255, 17, 0⟩)]⟩ ∧
    ComplexColorResolutionStrategy.get_color ⟨[("red", ⟨255, 17, 0⟩)]⟩ (.str "red") =
      .ok ⟨255, 17, 0⟩ := by
  decide
